import Mathlib

/-!
Verification of the token-storage, retry/error-mapping and OAuth credential
lifecycle of the `google-suite` repository, against a shallow embedding of
`gsuite_core` (storage/secretmanager.py, storage/sqlite.py, api_utils.py,
auth/oauth.py, exceptions.py).

Python dictionaries are embedded as association lists with in-place update
(`dictInsert`), matching the unique-key and key-order semantics of `dict`
assignment.  JSON payloads are embedded as a small `Json` inductive which
covers every shape the source produces (strings, nulls, string arrays for
scopes, and nested objects).  `json.dumps`/`json.loads` round-trips are the
identity on this fragment, so serialization is elided.
-/

namespace GSuite

/-- First value bound to key `k` in an association list (Python `d[k]` /
`d.get(k)` for a dict, whose keys are unique). -/
def dictFind {α : Type} (m : List (String × α)) (k : String) : Option α :=
  match m with
  | [] => none
  | (k', v) :: rest => if k' = k then some v else dictFind rest k

/-- Python `k in d`. -/
def dictContains {α : Type} (m : List (String × α)) (k : String) : Bool :=
  (dictFind m k).isSome

/-- Python `d[k] = v`: replace the value at the first occurrence of `k`
keeping its position, or append a fresh binding. -/
def dictInsert {α : Type} (m : List (String × α)) (k : String) (v : α) :
    List (String × α) :=
  match m with
  | [] => [(k, v)]
  | (k', v') :: rest =>
      if k' = k then (k, v) :: rest else (k', v') :: dictInsert rest k v

/-- Python `del d[k]`: drop the first binding of `k`. -/
def dictErase {α : Type} (m : List (String × α)) (k : String) :
    List (String × α) :=
  match m with
  | [] => []
  | (k', v') :: rest =>
      if k' = k then rest else (k', v') :: dictErase rest k

/-- JSON values, restricted to the fragment the source stores: token records
are flat objects whose values are strings, nulls or string arrays, and the
secret blob is an object possibly nesting such records. -/
inductive Json where
  | null : Json
  | str : String → Json
  | arr : List String → Json
  | obj : List (String × Json) → Json
deriving Repr

/-- The payload of a token-record dict: the literal JSON-object shape
`{token, refresh_token, token_uri, client_id, client_secret, scopes}`
named in spec section 6 and in claim C8. -/
def IsTokenRecordObj (td : List (String × Json)) : Prop :=
  td.map Prod.fst =
    ["token", "refresh_token", "token_uri", "client_id", "client_secret",
     "scopes"]

instance (td : List (String × Json)) : Decidable (IsTokenRecordObj td) := by
  unfold IsTokenRecordObj; infer_instance

/-! ## Secret Manager token store (`storage/secretmanager.py`)

The remote backend is the latest version of one secret.  `absent` embeds the
`NotFound` state, `present blob` a readable latest version holding the JSON
object `blob`, and `failing` a backend whose `access_secret_version` raises a
non-`NotFound` storage exception. -/

inductive SMBackend where
  | absent : SMBackend
  | present : List (String × Json) → SMBackend
  | failing : SMBackend
deriving Repr

/-- `SecretManagerTokenStore.get_token` (lines 65-84).  Mirrors:
`if user_id in data: return data[user_id]`,
`elif user_id == "default" and "token" in data: return data`, else `None`;
`NotFound` gives `None`, and the final `except Exception` clause logs and
returns `None` as well. -/
def sm_get_token (b : SMBackend) (user_id : String) : Option Json :=
  match b with
  | .absent => none
  | .failing => none
  | .present data =>
      if dictContains data user_id then dictFind data user_id
      else if user_id = "default" && dictContains data "token" then
        some (Json.obj data)
      else none

/-- The spec's `StorageError` (section 4.1).  Modelled from the spec: no such
class exists anywhere in `exceptions.py` or the rest of the source; it is
introduced only so that "raises StorageError" is expressible. -/
inductive StorageError where
  | mk : StorageError
deriving Repr, DecidableEq

/-- `get_token` with its exception behaviour made explicit: an `Except` value
that is `.error` exactly when the Python call would raise.  The source's
`except Exception as e: logger.error(...); return None` means the call NEVER
raises — every branch is `.ok`. -/
def sm_get_token_r (b : SMBackend) (user_id : String) :
    Except StorageError (Option Json) :=
  match b with
  | .absent => .ok none
  | .failing => .ok none
  | .present data => .ok (sm_get_token (.present data) user_id)

/-- `SecretManagerTokenStore.save_token` (lines 86-111).  `existing` is `{}`
on `NotFound`; a bare write happens only for the default user over an empty
(or absent) blob; otherwise the record is nested under its user id and the
whole blob rewritten.  On the `failing` backend the initial
`access_secret_version` raises an exception the source does not catch, so the
call propagates it (`.error`). -/
def sm_save_token (b : SMBackend) (token_data : List (String × Json))
    (user_id : String) : Except StorageError SMBackend :=
  match b with
  | .failing => .error .mk
  | .absent =>
      if user_id = "default" then .ok (.present token_data)
      else .ok (.present (dictInsert [] user_id (Json.obj token_data)))
  | .present existing =>
      if user_id = "default" && existing.isEmpty then .ok (.present token_data)
      else .ok (.present (dictInsert existing user_id (Json.obj token_data)))

/-- `SecretManagerTokenStore.delete_token` (lines 113-137): returns the
Python boolean result together with the backend state after the call.  When
the user id is a key, that key is deleted and a new version written; when it
is absent but equals `"default"`, the ENTIRE secret is deleted; `NotFound`
yields `False`.  The `failing` backend propagates its exception. -/
def sm_delete_token (b : SMBackend) (user_id : String) :
    Except StorageError (Bool × SMBackend) :=
  match b with
  | .failing => .error .mk
  | .absent => .ok (false, .absent)
  | .present data =>
      if dictContains data user_id then
        .ok (true, .present (dictErase data user_id))
      else if user_id = "default" then .ok (true, .absent)
      else .ok (false, .present data)

/-- `SecretManagerTokenStore.exists` (lines 139-141). -/
def sm_exists (b : SMBackend) (user_id : String) : Bool :=
  (sm_get_token b user_id).isSome

/-! ## SQLite token store (`storage/sqlite.py`)

The table has `user_id TEXT PRIMARY KEY`, so the database state is a
key-unique association from user id to the stored `token_data` JSON text;
`json.dumps`/`json.loads` is the identity on the `Json` fragment, so the
value is held as `Json` directly. -/

/-- `SQLiteTokenStore.get_token` (lines 41-49): `SELECT token_data FROM
tokens WHERE user_id = ?`, `json.loads` of the row if present. -/
def sqlite_get_token (db : List (String × Json)) (user_id : String) :
    Option Json :=
  dictFind db user_id

/-- `SQLiteTokenStore.save_token` (lines 51-66): `INSERT ... ON
CONFLICT(user_id) DO UPDATE SET token_data = excluded.token_data`. -/
def sqlite_save_token (db : List (String × Json)) (token_data : Json)
    (user_id : String) : List (String × Json) :=
  dictInsert db user_id token_data

/-- `SQLiteTokenStore.delete_token` (lines 68-73): result is
`cursor.rowcount > 0`. -/
def sqlite_delete_token (db : List (String × Json)) (user_id : String) :
    Bool × List (String × Json) :=
  (dictContains db user_id, dictErase db user_id)

/-- The raw exception a failing `sqlite3` backend raises; `get_token` wraps
nothing, so this propagates to the caller as-is. -/
inductive RawBackendException where
  | sqlite3Raw : RawBackendException
deriving Repr, DecidableEq

/-- The SQLite backend: a readable database, or one whose connection fails. -/
inductive SqliteBackend where
  | db : List (String × Json) → SqliteBackend
  | failing : SqliteBackend

/-- `SQLiteTokenStore.get_token` with exception behaviour explicit: the
method has no `try`/`except`, so a storage-layer failure propagates as the
raw backend exception (not wrapped in any domain error). -/
def sqlite_get_token_r (b : SqliteBackend) (user_id : String) :
    Except RawBackendException (Option Json) :=
  match b with
  | .db d => .ok (sqlite_get_token d user_id)
  | .failing => .error .sqlite3Raw

/-! ## Error mapping and retry wrappers (`api_utils.py`, `exceptions.py`) -/

/-- `googleapiclient.errors.HttpError` as observed by `api_utils.py`:
`error.resp.status`, `str(error)`, and the `retry-after` header
`error.resp.get("retry-after")`. -/
structure HttpErrorModel where
  status : Nat
  message : String
  retryAfter : Option Nat
deriving Repr, DecidableEq

/-- The `GSuiteError` subclasses produced by `map_http_error`, carrying the
fields their constructors in `exceptions.py` record. -/
inductive GError where
  | notFoundError (service resourceType resourceId : String)
  | quotaExceededError (service : String)
  | permissionDeniedError (service operation : String)
  | rateLimitError (service : String) (retryAfter : Option Nat)
  | apiError (message service : String) (statusCode : Nat)
deriving Repr, DecidableEq

/-- Python `str.lower()` on the underlying characters. -/
def lowerL (s : List Char) : List Char := s.map Char.toLower

/-- Python `sub in s` substring containment on characters. -/
def containsSub (s sub : List Char) : Bool :=
  match s with
  | [] => sub.isEmpty
  | _ :: rest => sub.isPrefixOf s || containsSub rest sub

/-- `"quota" in message.lower()` from `map_http_error` line 44. -/
def hasQuota (message : String) : Bool :=
  containsSub (lowerL message.data) "quota".data

/-- `map_http_error` (api_utils.py lines 24-52). -/
def map_http_error (e : HttpErrorModel) (service resourceType : String) :
    GError :=
  if e.status = 404 then .notFoundError service resourceType "unknown"
  else if e.status = 403 then
    if hasQuota e.message then .quotaExceededError service
    else .permissionDeniedError service "operation"
  else if e.status = 429 then .rateLimitError service e.retryAfter
  else .apiError e.message service e.status

/-- What a wrapped call ends with: a value, a mapped domain error raised, or
the source's `RuntimeError("Unexpected state in api_call")` line. -/
inductive ApiOutcome (T : Type) where
  | ok (value : T)
  | raised (e : GError)
  | runtimeUnexpected
deriving Repr

/-- Observable trace of one wrapped call: how many times the wrapped
function ran, the successive `time.sleep` arguments, and the outcome. -/
structure ApiTrace (T : Type) where
  calls : Nat
  delays : List ℚ
  outcome : ApiOutcome T

/-- The `for attempt in range(_max_retries + 1)` loop of `api_call`
(lines 97-132).  The wrapped function is `f`, indexed by attempt number
(so a function that fails every time is `f` constantly erroring).  `fuel`
counts the loop iterations still available; the fuel-0 case is the
post-loop `raise RuntimeError("Unexpected state in api_call")` line, which
is reachable only if the loop runs out of iterations. -/
def api_call_go {T : Type} (f : Nat → Except HttpErrorModel T)
    (service resourceType : String) (retryOnRateLimit : Bool)
    (maxRetries : Nat) (retryDelay : ℚ) :
    (fuel attempt : Nat) → ApiTrace T
  | 0, _ => ⟨0, [], .runtimeUnexpected⟩
  | fuel + 1, attempt =>
      match f attempt with
      | .ok v => ⟨1, [], .ok v⟩
      | .error e =>
          if e.status = 429 ∧ retryOnRateLimit = true ∧ attempt < maxRetries
          then
            let rest := api_call_go f service resourceType retryOnRateLimit
              maxRetries retryDelay fuel (attempt + 1)
            ⟨rest.calls + 1, retryDelay * 2 ^ attempt :: rest.delays,
              rest.outcome⟩
          else if (500 ≤ e.status ∧ e.status < 600) ∧ attempt < maxRetries
          then
            let rest := api_call_go f service resourceType retryOnRateLimit
              maxRetries retryDelay fuel (attempt + 1)
            ⟨rest.calls + 1, retryDelay * 2 ^ attempt :: rest.delays,
              rest.outcome⟩
          else ⟨1, [], .raised (map_http_error e service resourceType)⟩

/-- `api_call` (lines 55-136) with the retry policy values already
resolved (the decorator resolves `None` arguments from settings before the
loop; the claims quantify over the resolved values). -/
def api_call {T : Type} (f : Nat → Except HttpErrorModel T)
    (service resourceType : String) (retryOnRateLimit : Bool)
    (maxRetries : Nat) (retryDelay : ℚ) : ApiTrace T :=
  api_call_go f service resourceType retryOnRateLimit maxRetries retryDelay
    (maxRetries + 1) 0

/-- `api_call_optional` (lines 139-167): a single `try` around one
invocation of the wrapped function — 404 returns `None`, any other
`HttpError` is mapped and raised, and there is no retry loop at all. -/
def api_call_optional_run {T : Type} (f : Nat → Except HttpErrorModel T)
    (service resourceType : String) : ApiTrace (Option T) :=
  match f 0 with
  | .ok v => ⟨1, [], .ok (some v)⟩
  | .error e =>
      if e.status = 404 then ⟨1, [], .ok none⟩
      else ⟨1, [], .raised (map_http_error e service resourceType)⟩

/-! ## OAuth credential manager (`auth/oauth.py`)

`GoogleAuth` is embedded as explicit state passing.  The token store it
writes through is the `SQLiteTokenStore` default, whose values are exactly
the six-field dict built in `_save_credentials`, so the store slice is an
association from user id to that record shape.  `google.oauth2.credentials`
`Credentials` is a collaborator: the fields the source touches are embedded,
plus the derived `expired` flag; `valid` is google-auth's
`token is not None and not expired`.  Crucially, `_load_credentials` calls
the `Credentials` constructor WITHOUT an expiry, and a `Credentials` object
with no expiry reports `expired == False`. -/

/-- The dict literal built in `_save_credentials` / `export_token`. -/
structure TokenDataR where
  token : Option String
  refresh_token : Option String
  token_uri : Option String
  client_id : Option String
  client_secret : Option String
  scopes : List String
deriving Repr, DecidableEq

/-- The slice of a `google.oauth2.credentials.Credentials` object the
source reads and writes. -/
structure CredentialsM where
  token : Option String
  refresh_token : Option String
  token_uri : Option String
  client_id : Option String
  client_secret : Option String
  scopes : List String
  expired : Bool
deriving Repr, DecidableEq

/-- google-auth `Credentials.valid`: token present and not expired. -/
def CredentialsM.valid (c : CredentialsM) : Bool :=
  c.token.isSome && !c.expired

/-- The mutable state of one `GoogleAuth` instance: its token store (`none`
for the service-account path, which has no store), the constructor fields,
whether the OAuth client-secret file exists at `credentials_file`, and the
lazily-loaded `self._credentials` cache. -/
structure AuthState where
  store : Option (List (String × TokenDataR))
  user_id : String
  scopes : List String
  credentials_file_exists : Bool
  creds : Option CredentialsM
deriving Repr, DecidableEq

/-- `GoogleAuth._load_credentials` (lines 105-123): reads the store; a
truthy record is turned into a `Credentials` via the constructor, with
`scopes=token_data.get("scopes") or self.scopes` (empty list is falsy) and
no expiry — hence `expired := false`. -/
def load_credentials (s : AuthState) : AuthState :=
  match s.store with
  | none => s
  | some db =>
      match dictFind db s.user_id with
      | none => s
      | some td =>
          let c : CredentialsM :=
            { token := td.token
              refresh_token := td.refresh_token
              token_uri := td.token_uri
              client_id := td.client_id
              client_secret := td.client_secret
              scopes := if td.scopes.isEmpty then s.scopes else td.scopes
              expired := false }
          { s with creds := some c }

/-- The `credentials` property (lines 98-103): loads into the cache when
the cache is empty, then returns the cache. -/
def credentialsP (s : AuthState) : Option CredentialsM × AuthState :=
  match s.creds with
  | some c => (some c, s)
  | none =>
      let s' := load_credentials s
      (s'.creds, s')

/-- `GoogleAuth.is_authenticated` (lines 138-141). -/
def is_authenticated (s : AuthState) : Bool × AuthState :=
  let (c, s') := credentialsP s
  (match c with
   | none => false
   | some c => c.valid, s')

/-- `GoogleAuth.needs_refresh` (lines 143-148). -/
def needs_refresh (s : AuthState) : Bool × AuthState :=
  let (c, s') := credentialsP s
  (match c with
   | none => false
   | some c => c.expired && c.refresh_token.isSome, s')

/-- The token-data dict `_save_credentials`/`export_token` build from the
current credentials (`list(self._credentials.scopes or self.scopes)`). -/
def export_td (s : AuthState) (c : CredentialsM) : TokenDataR :=
  { token := c.token
    refresh_token := c.refresh_token
    token_uri := c.token_uri
    client_id := c.client_id
    client_secret := c.client_secret
    scopes := if c.scopes.isEmpty then s.scopes else c.scopes }

/-- `GoogleAuth._save_credentials` (lines 125-136): writes only when both
credentials and a store are present. -/
def save_credentials (s : AuthState) : AuthState :=
  match s.creds, s.store with
  | some c, some db =>
      { s with store := some (dictInsert db s.user_id (export_td s c)) }
  | _, _ => s

/-- The typed auth errors raised by `refresh`/`authenticate`
(`exceptions.py` lines 19-41); `TokenRefreshError(cause=e)` chains the
underlying exception, embedded here as its description string. -/
inductive AuthException where
  | tokenRefreshError (cause : String)
  | credentialsNotFoundError
deriving Repr, DecidableEq

/-- How a call to `refresh` ends: a returned boolean, or a raised error. -/
inductive RefreshResult where
  | returned (b : Bool)
  | raised (e : AuthException)
deriving Repr, DecidableEq

/-- `GoogleAuth.refresh` (lines 150-170).  `grant` is the collaborator
`self._credentials.refresh(Request())`: the network refresh grant, which
either yields refreshed credentials or raises.  Result: Python outcome, the
instance state after the call, and whether the grant (the only network
call) was invoked.  The `none` credentials branch is unreachable, because
`needs_refresh` returning true requires loaded credentials. -/
def refresh (grant : CredentialsM → Except String CredentialsM)
    (s : AuthState) : RefreshResult × AuthState × Bool :=
  let (nr, s₁) := needs_refresh s
  if nr then
    match s₁.creds with
    | none => (.returned false, s₁, false)
    | some c =>
        match grant c with
        | .ok c' =>
            (.returned true, save_credentials { s₁ with creds := some c' },
              true)
        | .error e => (.raised (.tokenRefreshError e), s₁, true)
  else (.returned false, s₁, false)

/-- How a call to `authenticate` ends: the returned `self._credentials`,
or a raised typed error. -/
inductive AuthResult where
  | returnedCreds (c : Option CredentialsM)
  | raised (e : AuthException)
deriving Repr, DecidableEq

/-- Which collaborators `authenticate` touched: the refresh grant and the
interactive consent flow (`InstalledAppFlow...run_local_server`). -/
structure AuthEffects where
  grantCalled : Bool
  flowCalled : Bool
deriving Repr, DecidableEq

/-- `GoogleAuth.authenticate` (lines 172-207).  `flow` is the credentials
object the interactive consent flow returns. -/
def authenticate (grant : CredentialsM → Except String CredentialsM)
    (flow : CredentialsM) (force : Bool) (s : AuthState) :
    AuthResult × AuthState × AuthEffects :=
  let interactive : AuthState → Bool → AuthResult × AuthState × AuthEffects :=
    fun st grantUsed =>
      if st.credentials_file_exists then
        let st' := save_credentials { st with creds := some flow }
        (.returnedCreds st'.creds, st', ⟨grantUsed, true⟩)
      else (.raised .credentialsNotFoundError, st, ⟨grantUsed, false⟩)
  if force then interactive s false
  else
    let (auth, s₁) := is_authenticated s
    if auth then (.returnedCreds s₁.creds, s₁, ⟨false, false⟩)
    else
      let (nr, s₂) := needs_refresh s₁
      if nr then
        match refresh grant s₂ with
        | (.returned true, s₃, g) => (.returnedCreds s₃.creds, s₃, ⟨g, false⟩)
        | (.returned false, s₃, g) => interactive s₃ g
        | (.raised e, s₃, g) => (.raised e, s₃, ⟨g, false⟩)
      else interactive s₂ false

/-! ## Concrete inputs used by counterexamples and witnesses -/

/-- A bare single-user blob: exactly the token record of the default user,
stored at the top level of the secret. -/
def bareDefaultEx : List (String × Json) :=
  [("token", .str "t0"), ("refresh_token", .str "r0"),
   ("token_uri", .str "uri"), ("client_id", .str "ci"),
   ("client_secret", .str "cs"), ("scopes", .arr ["s1"])]

/-- A token record for user "alice", different from the default one. -/
def aliceRecEx : List (String × Json) :=
  [("token", .str "ta"), ("refresh_token", .str "ra"),
   ("token_uri", .str "uri"), ("client_id", .str "ci"),
   ("client_secret", .str "cs"), ("scopes", .arr ["s2"])]

/-- The blob after saving alice's record over the bare default blob. -/
def blobAfterEx : List (String × Json) :=
  bareDefaultEx ++ [("alice", Json.obj aliceRecEx)]

/-- A stored token record for the default user with token and refresh
token present. -/
def tdStoredEx : TokenDataR :=
  ⟨some "t0", some "r0", some "uri", some "ci", some "cs", ["s1"]⟩

/-- The credentials `_load_credentials` builds from `tdStoredEx`
(constructor called without expiry, hence not expired). -/
def cLoadedEx : CredentialsM :=
  ⟨some "t0", some "r0", some "uri", some "ci", some "cs", ["s1"], false⟩

/-- An auth state whose credentials cache is empty while the store holds a
record for the default user. -/
def sCacheEmptyEx : AuthState :=
  ⟨some [("default", tdStoredEx)], "default", ["sc"], true, none⟩

/-- An auth state holding loaded, valid credentials; the client-secret
file is absent. -/
def sValidEx : AuthState :=
  ⟨some [("default", tdStoredEx)], "default", ["sc"], false, some cLoadedEx⟩

/-- Expired credentials that do carry a refresh token. -/
def cExpiredEx : CredentialsM :=
  ⟨some "t0", some "r0", some "uri", some "ci", some "cs", ["s1"], true⟩

/-- An auth state holding the expired-but-refreshable credentials. -/
def sExpiredEx : AuthState :=
  ⟨some [("default", tdStoredEx)], "default", ["sc"], true, some cExpiredEx⟩

/-- The credentials a successful refresh grant returns. -/
def cRefreshedEx : CredentialsM :=
  ⟨some "t1", some "r0", some "uri", some "ci", some "cs", ["s1"], false⟩

/-- The credentials the interactive consent flow would return. -/
def cFlowEx : CredentialsM :=
  ⟨some "tf", some "rf", some "uri", some "ci", some "cs", ["sc"], false⟩

/-! ## Association-list dictionary lemmas -/

@[simp] theorem dictFind_nil {α : Type} (k : String) :
    dictFind ([] : List (String × α)) k = none := rfl

@[simp] theorem dictFind_cons {α : Type} (k' k : String) (v : α)
    (rest : List (String × α)) :
    dictFind ((k', v) :: rest) k =
      if k' = k then some v else dictFind rest k := rfl

theorem dictFind_insert_self {α : Type} (m : List (String × α)) (k : String)
    (v : α) : dictFind (dictInsert m k v) k = some v := by
  induction m with
  | nil => simp [dictInsert]
  | cons hd tl ih =>
      obtain ⟨k', v'⟩ := hd
      by_cases h : k' = k <;> simp [dictInsert, h, ih]

theorem dictFind_insert_ne {α : Type} (m : List (String × α)) (k k₂ : String)
    (v : α) (hne : k ≠ k₂) :
    dictFind (dictInsert m k v) k₂ = dictFind m k₂ := by
  induction m with
  | nil => simp [dictInsert, hne]
  | cons hd tl ih =>
      obtain ⟨k', v'⟩ := hd
      by_cases h : k' = k
      · subst h; simp [dictInsert, hne]
      · simp [dictInsert, h, ih]

theorem dictContains_insert_self {α : Type} (m : List (String × α))
    (k : String) (v : α) : dictContains (dictInsert m k v) k = true := by
  simp [dictContains, dictFind_insert_self]

theorem dictFind_isSome_iff_mem {α : Type} (m : List (String × α))
    (k : String) : (dictFind m k).isSome = true ↔ k ∈ m.map Prod.fst := by
  induction m with
  | nil => simp
  | cons hd tl ih =>
      obtain ⟨k', v'⟩ := hd
      by_cases h : k' = k
      · subst h; simp
      · simp [h, ih, Ne.symm h]

theorem dictContains_iff_mem {α : Type} (m : List (String × α)) (k : String) :
    dictContains m k = true ↔ k ∈ m.map Prod.fst :=
  dictFind_isSome_iff_mem m k

theorem dictContains_eq_false_of_not_mem {α : Type} {m : List (String × α)}
    {k : String} (h : k ∉ m.map Prod.fst) : dictContains m k = false := by
  rcases hb : dictContains m k with _ | _
  · rfl
  · exact absurd ((dictContains_iff_mem m k).mp hb) h

theorem dictFind_eq_none_of_not_mem {α : Type} {m : List (String × α)}
    {k : String} (h : k ∉ m.map Prod.fst) : dictFind m k = none := by
  have hb := dictContains_eq_false_of_not_mem h
  rcases hf : dictFind m k with _ | v
  · rfl
  · rw [dictContains, hf] at hb; simp at hb

theorem dictInsert_eq_append {α : Type} {m : List (String × α)} {k : String}
    (v : α) (h : dictContains m k = false) :
    dictInsert m k v = m ++ [(k, v)] := by
  induction m with
  | nil => rfl
  | cons hd tl ih =>
      obtain ⟨k', v'⟩ := hd
      by_cases hk : k' = k
      · subst hk; simp [dictContains, dictFind] at h
      · simp only [dictInsert, if_neg hk, List.cons_append, List.cons.injEq,
          true_and]
        exact ih (by simpa [dictContains, dictFind, hk] using h)

/-! ## C1: saving "alice" over a bare default blob -/

/-- C1 counterexample: with a concrete bare default blob already stored,
saving alice's record leaves alice retrievable exactly, but
`get_token("default")` no longer returns the record that was stored for the
default user before the save — it returns the whole blob, which now carries
an extra `"alice"` key. -/
theorem C1_counterexample :
    sm_save_token (.present bareDefaultEx) aliceRecEx "alice" =
      .ok (.present blobAfterEx) ∧
    sm_get_token (.present blobAfterEx) "alice" = some (Json.obj aliceRecEx) ∧
    sm_get_token (.present blobAfterEx) "default" ≠
      some (Json.obj bareDefaultEx) := by
  refine ⟨rfl, rfl, ?_⟩
  have h : sm_get_token (.present blobAfterEx) "default" =
      some (Json.obj blobAfterEx) := rfl
  rw [h]
  simp [blobAfterEx, bareDefaultEx, aliceRecEx]

/-- C1 (amended): saving a token record under `"alice"` when a bare
default-user blob exists appends the record under the `"alice"` key;
`get_token("alice")` then returns exactly alice's record, every field of the
default user's record is still retrievable unchanged at its key, but
`get_token("default")` returns the whole updated blob — the pre-save default
record with the `"alice"` key added to it. -/
theorem C1_alice_save_default_blob (data aliceRec : List (String × Json))
    (hdata : IsTokenRecordObj data) (_halice : IsTokenRecordObj aliceRec) :
    sm_save_token (.present data) aliceRec "alice" =
      .ok (.present (data ++ [("alice", Json.obj aliceRec)])) ∧
    sm_get_token (.present (data ++ [("alice", Json.obj aliceRec)])) "alice" =
      some (Json.obj aliceRec) ∧
    sm_get_token (.present (data ++ [("alice", Json.obj aliceRec)]))
        "default" =
      some (Json.obj (data ++ [("alice", Json.obj aliceRec)])) ∧
    (∀ k, k ≠ "alice" →
      dictFind (data ++ [("alice", Json.obj aliceRec)]) k = dictFind data k)
    := by
  have hmemA : "alice" ∉ data.map Prod.fst := by rw [hdata]; decide
  have hcA : dictContains data "alice" = false :=
    dictContains_eq_false_of_not_mem hmemA
  have happ : dictInsert data "alice" (Json.obj aliceRec) =
      data ++ [("alice", Json.obj aliceRec)] :=
    dictInsert_eq_append _ hcA
  have hkeys : (data ++ [("alice", Json.obj aliceRec)]).map Prod.fst =
      ["token", "refresh_token", "token_uri", "client_id", "client_secret",
       "scopes", "alice"] := by
    rw [List.map_append, hdata]; rfl
  have hdec : (decide (("alice" : String) = "default")) = false := by decide
  refine ⟨?_, ?_, ?_, ?_⟩
  · simp only [sm_save_token, hdec, Bool.false_and, Bool.false_eq_true,
      if_false, happ]
  · have hc : dictContains (data ++ [("alice", Json.obj aliceRec)]) "alice" =
        true := by
      rw [← happ]; exact dictContains_insert_self data "alice" _
    rw [← happ]
    simp only [sm_get_token, dictContains_insert_self, if_true]
    exact dictFind_insert_self data "alice" _
  · have hcd : dictContains (data ++ [("alice", Json.obj aliceRec)])
        "default" = false := by
      apply dictContains_eq_false_of_not_mem
      rw [hkeys]; decide
    have hct : dictContains (data ++ [("alice", Json.obj aliceRec)])
        "token" = true := by
      apply (dictContains_iff_mem _ _).mpr
      rw [hkeys]; decide
    simp [sm_get_token, hcd, hct]
  · intro k hk
    rw [← happ]
    exact dictFind_insert_ne data "alice" k _ (Ne.symm hk)

/-- C1 witness: the amended theorem applied to the concrete bare blob and
alice record. -/
theorem C1_witness :
    IsTokenRecordObj bareDefaultEx ∧ IsTokenRecordObj aliceRecEx ∧
    sm_get_token (.present (bareDefaultEx ++ [("alice", Json.obj aliceRecEx)]))
        "alice" = some (Json.obj aliceRecEx) :=
  ⟨by decide, by decide,
    (C1_alice_save_default_blob bareDefaultEx aliceRecEx (by decide)
        (by decide)).2.1⟩

/-! ## C10: deleting the default user from a blob with no "default" key -/

/-- C10: on a stored blob whose object has no literal `"default"` key,
`delete_token("default")` takes the `elif user_id == "default"` branch,
deletes the entire secret and returns `True`; afterwards the secret is
absent, so `get_token(u)` is `None` and `exists(u)` is `False` for every
user id `u`. -/
theorem C10_delete_default_wipes_blob (data : List (String × Json))
    (h : dictContains data "default" = false) :
    sm_delete_token (.present data) "default" = .ok (true, .absent) ∧
    (∀ u, sm_get_token .absent u = none) ∧
    (∀ u, sm_exists .absent u = false) := by
  refine ⟨?_, fun u => rfl, fun u => rfl⟩
  simp [sm_delete_token, h]

/-- C10 witness: the blob holding only alice's record has no `"default"`
key, and deleting the default user wipes the whole secret — alice's record
included. -/
theorem C10_witness :
    dictContains [("alice", Json.obj aliceRecEx)] "default" = false ∧
    sm_delete_token (.present [("alice", Json.obj aliceRecEx)]) "default" =
      .ok (true, .absent) :=
  ⟨rfl, (C10_delete_default_wipes_blob [("alice", Json.obj aliceRecEx)]
      rfl).1⟩

/-! ## C4: get never raises for not-found; what a storage failure does -/

/-- C4 counterexample: on a backend whose `access_secret_version` raises a
genuine storage-layer exception, `get_token` returns `None` — the failure
is caught and logged, and no `StorageError` propagates to the caller (no
such exception class exists in the source at all). -/
theorem C4_counterexample :
    sm_get_token_r .failing "default" = .ok none ∧
    sm_get_token_r .failing "default" ≠ .error StorageError.mk :=
  ⟨rfl, fun h => Except.noConfusion h⟩

/-- C4 (amended): `get_token` returns the stored record or nothing when
absent and never raises for not-found; but a storage-layer failure does NOT
propagate as a `StorageError` — the Secret Manager store catches every
exception and returns nothing (indistinguishable from absence), while the
SQLite store propagates the backend's raw exception unwrapped. -/
theorem C4_get_token_failure_behaviour :
    (∀ b u, ∃ r, sm_get_token_r b u = .ok r) ∧
    (∀ u, sm_get_token_r .absent u = .ok none) ∧
    (∀ u, sm_get_token_r .failing u = .ok none) ∧
    (∀ db u, sqlite_get_token_r (.db db) u = .ok (sqlite_get_token db u)) ∧
    (∀ u, sqlite_get_token_r .failing u = .error .sqlite3Raw) := by
  refine ⟨fun b u => ?_, fun u => rfl, fun u => rfl, fun db u => rfl,
    fun u => rfl⟩
  cases b <;> exact ⟨_, rfl⟩

/-! ## C5: the HTTP status to domain error mapping -/

/-- C5: `map_http_error` is a pure function of the error's status, message
and retry-after hint, evaluated in the fixed order 404, 403+quota, 403,
429, other; the same input always yields the same error kind. -/
theorem C5_map_http_error_spec (e : HttpErrorModel)
    (service resourceType : String) :
    (e.status = 404 → map_http_error e service resourceType =
        .notFoundError service resourceType "unknown") ∧
    (e.status = 403 → hasQuota e.message = true →
        map_http_error e service resourceType =
          .quotaExceededError service) ∧
    (e.status = 403 → hasQuota e.message = false →
        map_http_error e service resourceType =
          .permissionDeniedError service "operation") ∧
    (e.status = 429 → map_http_error e service resourceType =
        .rateLimitError service e.retryAfter) ∧
    (e.status ≠ 404 → e.status ≠ 403 → e.status ≠ 429 →
        map_http_error e service resourceType =
          .apiError e.message service e.status) ∧
    (∀ e₂ : HttpErrorModel, e₂.status = e.status → e₂.message = e.message →
        e₂.retryAfter = e.retryAfter →
        map_http_error e₂ service resourceType =
          map_http_error e service resourceType) := by
  refine ⟨?_, ?_, ?_, ?_, ?_, ?_⟩
  · intro h; simp [map_http_error, h]
  · intro h hq; simp [map_http_error, h, hq]
  · intro h hq; simp [map_http_error, h, hq]
  · intro h; simp [map_http_error, h]
  · intro h1 h2 h3; simp [map_http_error, h1, h2, h3]
  · intro e₂ h1 h2 h3; simp only [map_http_error, h1, h2, h3]

/-- C5 witness: the mapping evaluated on concrete errors for the 404 and
403-with-quota branches. -/
theorem C5_witness :
    map_http_error ⟨404, "nf", none⟩ "gmail" "message" =
      .notFoundError "gmail" "message" "unknown" ∧
    map_http_error ⟨403, "API Quota hit", none⟩ "sheets" "spreadsheet" =
      .quotaExceededError "sheets" :=
  ⟨(C5_map_http_error_spec ⟨404, "nf", none⟩ "gmail" "message").1 rfl,
   (C5_map_http_error_spec ⟨403, "API Quota hit", none⟩ "sheets"
      "spreadsheet").2.1 rfl (by decide)⟩

/-! ## C2: retry exhaustion under a permanently rate-limited call -/

/-- Helper for C2: one pass of the retry loop from any attempt index, when
the wrapped call fails with a 429 on every attempt and rate-limit retry is
enabled. -/
theorem api_call_go_always429 {T : Type} (g : Nat → HttpErrorModel)
    (f : Nat → Except HttpErrorModel T) (service resourceType : String)
    (N : Nat) (d : ℚ)
    (hf : ∀ k, f k = .error (g k)) (hs : ∀ k, (g k).status = 429) :
    ∀ fuel attempt, attempt ≤ N → attempt + fuel = N + 1 →
      api_call_go f service resourceType true N d fuel attempt =
        ⟨fuel,
          (List.range (N - attempt)).map (fun i => d * 2 ^ (attempt + i)),
          .raised (.rateLimitError service (g N).retryAfter)⟩ := by
  intro fuel
  induction fuel with
  | zero => intro attempt h1 h2; omega
  | succ fuel ih =>
      intro attempt h1 h2
      simp only [api_call_go, hf attempt]
      by_cases hlt : attempt < N
      · rw [if_pos ⟨hs attempt, by trivial, hlt⟩,
          ih (attempt + 1) (by omega) (by omega)]
        have hdel : d * 2 ^ attempt ::
            (List.range (N - (attempt + 1))).map
              (fun i => d * 2 ^ (attempt + 1 + i)) =
            (List.range (N - attempt)).map (fun i => d * 2 ^ (attempt + i))
            := by
          have hNa : N - attempt = (N - attempt - 1) + 1 := by omega
          have h1 : N - (attempt + 1) = N - attempt - 1 := by omega
          rw [hNa, List.range_succ_eq_map, List.map_cons, List.map_map, h1]
          congr 1
          apply List.map_congr_left
          intro i _
          simp only [Function.comp_apply, Nat.succ_eq_add_one]
          have h2i : attempt + 1 + i = attempt + (i + 1) := by omega
          rw [h2i]
        exact congrArg (fun l => ApiTrace.mk (fuel + 1) l
          (.raised (.rateLimitError service (g N).retryAfter))) hdel
      · have ha : attempt = N := by omega
        subst ha
        have hfu : fuel = 0 := by omega
        subst hfu
        rw [if_neg (fun h => hlt h.2.2), if_neg (fun h => hlt h.2)]
        simp [map_http_error, hs attempt]

/-- C2: with rate-limit retry enabled, max retries `N` and base delay `d`,
a wrapped call that fails with HTTP 429 on every attempt is invoked exactly
`N + 1` times, the k-th retry (k counted from 0) is preceded by a sleep of
`d * 2 ^ k`, and the call ends by raising the `RateLimitError` that
`map_http_error` assigns to the last 429 (the error is mapped, never
dropped). -/
theorem C2_retry_exhaustion {T : Type} (g : Nat → HttpErrorModel)
    (f : Nat → Except HttpErrorModel T) (service resourceType : String)
    (N : Nat) (d : ℚ)
    (hf : ∀ k, f k = .error (g k)) (hs : ∀ k, (g k).status = 429) :
    (api_call f service resourceType true N d).calls = N + 1 ∧
    (api_call f service resourceType true N d).delays =
      (List.range N).map (fun k => d * 2 ^ k) ∧
    (api_call f service resourceType true N d).outcome =
      .raised (.rateLimitError service (g N).retryAfter) := by
  have h := api_call_go_always429 g f service resourceType N d hf hs (N + 1)
    0 (Nat.zero_le N) (by omega)
  unfold api_call
  rw [h]
  exact ⟨rfl, by simp, rfl⟩

/-- C2 witness: a call permanently failing with 429, `max_retries = 2`,
`retry_delay = 1`: three invocations, sleeps of 1 and 2, then
`RateLimitError`. -/
theorem C2_witness :
    (api_call (fun _ => (.error ⟨429, "rate limited", none⟩ :
        Except HttpErrorModel Unit)) "gmail" "message" true 2 1).calls =
      2 + 1 ∧
    (api_call (fun _ => (.error ⟨429, "rate limited", none⟩ :
        Except HttpErrorModel Unit)) "gmail" "message" true 2 1).delays =
      (List.range 2).map (fun k => (1 : ℚ) * 2 ^ k) ∧
    (api_call (fun _ => (.error ⟨429, "rate limited", none⟩ :
        Except HttpErrorModel Unit)) "gmail" "message" true 2 1).outcome =
      .raised (.rateLimitError "gmail" none) :=
  C2_retry_exhaustion (fun _ => ⟨429, "rate limited", none⟩)
    (fun _ => .error ⟨429, "rate limited", none⟩) "gmail" "message" 2 1
    (fun _ => rfl) (fun _ => rfl)

/-! ## C3: the get-by-id wrapper variant -/

/-- C3 counterexample: `api_call_optional` does NOT have retry behaviour
identical to `api_call` — on a call that fails with a retryable HTTP 500,
the optional wrapper invokes the wrapped function exactly once and raises
the mapped error immediately, while `api_call` under the same failure and
retry settings invokes it three times. -/
theorem C3_counterexample :
    (api_call_optional_run (fun _ => (.error ⟨500, "backend boom", none⟩ :
        Except HttpErrorModel Unit)) "drive" "file").calls = 1 ∧
    (api_call_optional_run (fun _ => (.error ⟨500, "backend boom", none⟩ :
        Except HttpErrorModel Unit)) "drive" "file").outcome =
      .raised (.apiError "backend boom" "drive" 500) ∧
    (api_call (fun _ => (.error ⟨500, "backend boom", none⟩ :
        Except HttpErrorModel Unit)) "drive" "file" true 2 1).calls = 3 :=
  ⟨rfl, rfl, rfl⟩

/-- C3 (amended): `api_call_optional` performs no retries at all: the
wrapped call is invoked exactly once regardless of any retry settings; an
HTTP 404 makes it return no result (`None`) instead of raising; every other
`HttpError` is mapped through the same `map_http_error` and raised; a
success value passes through. -/
theorem C3_optional_no_retry {T : Type} (f : Nat → Except HttpErrorModel T)
    (service resourceType : String) :
    (api_call_optional_run f service resourceType).calls = 1 ∧
    (∀ v, f 0 = .ok v →
      (api_call_optional_run f service resourceType).outcome =
        .ok (some v)) ∧
    (∀ e, f 0 = .error e → e.status = 404 →
      (api_call_optional_run f service resourceType).outcome = .ok none) ∧
    (∀ e, f 0 = .error e → e.status ≠ 404 →
      (api_call_optional_run f service resourceType).outcome =
        .raised (map_http_error e service resourceType)) := by
  refine ⟨?_, ?_, ?_, ?_⟩
  · rcases hf : f 0 with e | v
    · by_cases h : e.status = 404 <;> simp [api_call_optional_run, hf, h]
    · simp [api_call_optional_run, hf]
  · intro v h; simp [api_call_optional_run, h]
  · intro e h h4; simp [api_call_optional_run, h, h4]
  · intro e h h4; simp [api_call_optional_run, h, h4]

/-- C3 witness: the amended theorem applied to a call failing with 404 —
the wrapper returns no result instead of raising. -/
theorem C3_witness :
    ((fun _ => (.error ⟨404, "nf", none⟩ : Except HttpErrorModel Unit)) 0 =
      .error ⟨404, "nf", none⟩) ∧
    (api_call_optional_run (fun _ => (.error ⟨404, "nf", none⟩ :
        Except HttpErrorModel Unit)) "drive" "file").outcome = .ok none :=
  ⟨rfl, (C3_optional_no_retry (fun _ => .error ⟨404, "nf", none⟩) "drive"
      "file").2.2.1 ⟨404, "nf", none⟩ rfl (by decide)⟩

/-! ## Credential-manager lemmas -/

theorem load_credentials_frame (s : AuthState) :
    (load_credentials s).store = s.store ∧
    (load_credentials s).user_id = s.user_id ∧
    (load_credentials s).scopes = s.scopes ∧
    (load_credentials s).credentials_file_exists =
      s.credentials_file_exists := by
  rcases hs : s.store with _ | db
  · simp [load_credentials, hs]
  · rcases hf : dictFind db s.user_id with _ | td <;>
      simp [load_credentials, hs, hf]

theorem credentialsP_frame (s : AuthState) :
    ((credentialsP s).2).store = s.store ∧
    ((credentialsP s).2).user_id = s.user_id ∧
    ((credentialsP s).2).scopes = s.scopes ∧
    ((credentialsP s).2).credentials_file_exists =
      s.credentials_file_exists ∧
    ((credentialsP s).2).creds = (credentialsP s).1 := by
  rcases hc : s.creds with _ | c
  · have hl := load_credentials_frame s
    simp only [credentialsP, hc]
    exact ⟨hl.1, hl.2.1, hl.2.2.1, hl.2.2.2, trivial⟩
  · simp [credentialsP, hc]

theorem credentialsP_of_some (s : AuthState) (c₀ : CredentialsM)
    (h : s.creds = some c₀) : credentialsP s = (some c₀, s) := by
  unfold credentialsP
  rw [h]

theorem needs_refresh_snd (s : AuthState) :
    (needs_refresh s).2 = (credentialsP s).2 := by
  unfold needs_refresh
  rcases hp : credentialsP s with ⟨c, s₁⟩
  rfl

theorem is_authenticated_snd (s : AuthState) :
    (is_authenticated s).2 = (credentialsP s).2 := by
  unfold is_authenticated
  rcases hp : credentialsP s with ⟨c, s₁⟩
  rfl

theorem save_credentials_eq (s : AuthState) (c : CredentialsM)
    (db : List (String × TokenDataR)) (hc : s.creds = some c)
    (hdb : s.store = some db) :
    save_credentials s =
      { s with store := some (dictInsert db s.user_id (export_td s c)) }
    := by
  unfold save_credentials
  rw [hc, hdb]

/-! ## C6: refresh is a no-op when nothing is refreshable -/

/-- C6 counterexample: a state whose credentials cache is empty but whose
store holds a record.  `needs_refresh()` is false and `refresh()` returns
false, yet the call changes the in-memory credentials — `needs_refresh`'s
`credentials` property access lazily loads the stored record into
`self._credentials`, so the cached credentials go from `None` to the loaded
object. -/
theorem C6_counterexample :
    (needs_refresh sCacheEmptyEx).1 = false ∧
    (refresh (fun c => .ok c) sCacheEmptyEx).1 = .returned false ∧
    ((refresh (fun c => .ok c) sCacheEmptyEx).2.1).creds ≠
      sCacheEmptyEx.creds := by
  refine ⟨rfl, rfl, ?_⟩
  have h : ((refresh (fun c => .ok c) sCacheEmptyEx).2.1).creds =
      some cLoadedEx := rfl
  rw [h]
  simp [sCacheEmptyEx]

/-- C6 (amended): whenever `needs_refresh()` is false, `refresh()` returns
false, never invokes the refresh grant (no network call), and leaves the
Token Store unchanged; the in-memory credentials are unchanged except that
the lazy cache may be populated from the store — afterwards the cache holds
exactly what the `credentials` property already returned, and when the
cache was already populated the state is entirely unchanged. -/
theorem C6_refresh_noop (grant : CredentialsM → Except String CredentialsM)
    (s : AuthState) (h : (needs_refresh s).1 = false) :
    refresh grant s = (.returned false, (needs_refresh s).2, false) ∧
    ((needs_refresh s).2).store = s.store ∧
    ((needs_refresh s).2).creds = (credentialsP s).1 ∧
    (∀ c₀, s.creds = some c₀ → (needs_refresh s).2 = s) := by
  have hnr : needs_refresh s = (false, (needs_refresh s).2) := by
    rw [← h]
  refine ⟨?_, ?_, ?_, ?_⟩
  · unfold refresh
    rw [hnr]
    rfl
  · rw [needs_refresh_snd]; exact (credentialsP_frame s).1
  · rw [needs_refresh_snd]; exact (credentialsP_frame s).2.2.2.2
  · intro c₀ hc₀
    rw [needs_refresh_snd, credentialsP_of_some s c₀ hc₀]

/-- C6 witness: on a state with loaded, unexpired credentials,
`needs_refresh()` is false and `refresh()` is a pure no-op returning
false. -/
theorem C6_witness :
    (needs_refresh sValidEx).1 = false ∧
    refresh (fun c => .ok c) sValidEx =
      (.returned false, (needs_refresh sValidEx).2, false) :=
  ⟨rfl, (C6_refresh_noop (fun c => .ok c) sValidEx rfl).1⟩

/-! ## C7: refresh invokes the grant and persists or raises -/

/-- C7: when `needs_refresh()` is true, `refresh()` invokes the refresh
grant; on success it stores the refreshed record (the exported credential
fields, upserted under the instance's user id) and returns true; on any
grant failure it raises `TokenRefreshError` chaining the underlying cause,
persists nothing (the Token Store is unchanged) and does not return a
success value. -/
theorem C7_refresh_invokes_grant
    (grant : CredentialsM → Except String CredentialsM) (s : AuthState)
    (c : CredentialsM) (h : (needs_refresh s).1 = true)
    (hc : ((credentialsP s).2).creds = some c) :
    (∀ c', grant c = .ok c' →
      refresh grant s =
        (.returned true,
          save_credentials { (credentialsP s).2 with creds := some c' },
          true) ∧
      (∀ db, s.store = some db →
        (save_credentials
            { (credentialsP s).2 with creds := some c' }).store =
          some (dictInsert db s.user_id
            (export_td { (credentialsP s).2 with creds := some c' } c'))))
    ∧
    (∀ e, grant c = .error e →
      refresh grant s =
        (.raised (.tokenRefreshError e), (credentialsP s).2, true) ∧
      ((credentialsP s).2).store = s.store) := by
  have hnr : needs_refresh s = (true, (credentialsP s).2) := by
    rw [← h, ← needs_refresh_snd s]
  constructor
  · intro c' hok
    constructor
    · unfold refresh
      rw [hnr]
      simp only [if_true, hc, hok]
    · intro db hdb
      have hst : ({ (credentialsP s).2 with creds := some c' } :
          AuthState).store = some db := by
        have := (credentialsP_frame s).1
        show ((credentialsP s).2).store = some db
        rw [this, hdb]
      rw [save_credentials_eq _ c' db rfl hst]
      have hu : ({ (credentialsP s).2 with creds := some c' } :
          AuthState).user_id = s.user_id := (credentialsP_frame s).2.1
      rw [hu]
  · intro e herr
    constructor
    · unfold refresh
      rw [hnr]
      simp only [if_true, hc, herr]
    · exact (credentialsP_frame s).1

/-- C7 witness: expired-refreshable credentials and a succeeding grant —
refresh returns true and persists the refreshed record. -/
theorem C7_witness :
    (needs_refresh sExpiredEx).1 = true ∧
    refresh (fun _ => .ok cRefreshedEx) sExpiredEx =
      (.returned true,
        save_credentials
          { (credentialsP sExpiredEx).2 with creds := some cRefreshedEx },
        true) :=
  ⟨rfl, ((C7_refresh_invokes_grant (fun _ => .ok cRefreshedEx) sExpiredEx
      cExpiredEx rfl rfl).1 cRefreshedEx rfl).1⟩

/-! ## C9: authenticate is idempotent when already valid -/

/-- C9 counterexample: a state with an empty credentials cache whose store
holds a valid record.  `is_authenticated()` is true and
`authenticate(force=False)` returns immediately, but the call changes the
in-memory credentials — the `is_authenticated` check lazily loads the
stored record into `self._credentials`. -/
theorem C9_counterexample :
    (is_authenticated sCacheEmptyEx).1 = true ∧
    ((authenticate (fun c => .ok c) cFlowEx false sCacheEmptyEx).2.1).creds
      ≠ sCacheEmptyEx.creds := by
  refine ⟨rfl, ?_⟩
  have h : ((authenticate (fun c => .ok c) cFlowEx false
      sCacheEmptyEx).2.1).creds = some cLoadedEx := rfl
  rw [h]
  simp [sCacheEmptyEx]

/-- C9 (amended): whenever `is_authenticated()` is true,
`authenticate(force=False)` returns the current credentials immediately: it
runs no OAuth consent flow, invokes no refresh grant, does not require the
credentials file to exist, and leaves the Token Store unchanged; the
in-memory credentials are unchanged except that the lazy cache may be
populated from the store (with exactly the value the `credentials` property
returns), and when the cache was already populated the state is entirely
unchanged. -/
theorem C9_authenticate_idempotent
    (grant : CredentialsM → Except String CredentialsM)
    (flow : CredentialsM) (s : AuthState)
    (h : (is_authenticated s).1 = true) :
    authenticate grant flow false s =
      (.returnedCreds (credentialsP s).1, (credentialsP s).2,
        ⟨false, false⟩) ∧
    ((credentialsP s).2).store = s.store ∧
    ((credentialsP s).2).creds = (credentialsP s).1 ∧
    ((credentialsP s).2).credentials_file_exists =
      s.credentials_file_exists ∧
    (∀ c₀, s.creds = some c₀ → (credentialsP s).2 = s) := by
  have hia : is_authenticated s = (true, (credentialsP s).2) := by
    rw [← h, ← is_authenticated_snd s]
  refine ⟨?_, (credentialsP_frame s).1, (credentialsP_frame s).2.2.2.2,
    (credentialsP_frame s).2.2.2.1, ?_⟩
  · unfold authenticate
    rw [hia]
    simp only [Bool.false_eq_true, if_false, if_true,
      (credentialsP_frame s).2.2.2.2]
  · intro c₀ hc₀
    rw [credentialsP_of_some s c₀ hc₀]

/-- C9 witness: loaded valid credentials and no client-secret file on disk
— `authenticate(force=False)` still returns the credentials at once, with
no flow and no grant. -/
theorem C9_witness :
    (is_authenticated sValidEx).1 = true ∧
    sValidEx.credentials_file_exists = false ∧
    authenticate (fun c => .ok c) cFlowEx false sValidEx =
      (.returnedCreds (credentialsP sValidEx).1, (credentialsP sValidEx).2,
        ⟨false, false⟩) :=
  ⟨rfl, rfl,
    (C9_authenticate_idempotent (fun c => .ok c) cFlowEx sValidEx rfl).1⟩

/-! ## C8: round-trip and idempotent upsert -/

theorem dictInsert_keys {α : Type} (m : List (String × α)) (k : String)
    (v : α) :
    (dictInsert m k v).map Prod.fst =
      if dictContains m k then m.map Prod.fst
      else m.map Prod.fst ++ [k] := by
  induction m with
  | nil => simp [dictInsert, dictContains, dictFind]
  | cons hd tl ih =>
      obtain ⟨k', v'⟩ := hd
      by_cases h : k' = k
      · subst h; simp [dictInsert, dictContains, dictFind]
      · have hcc : dictContains ((k', v') :: tl) k = dictContains tl k := by
          simp [dictContains, dictFind, h]
        simp only [dictInsert, if_neg h, List.map_cons, ih, hcc]
        by_cases hc : dictContains tl k = true
        · simp [hc]
        · simp [hc]

theorem dictInsert_keys_nodup {α : Type} {m : List (String × α)}
    (k : String) (v : α) (h : (m.map Prod.fst).Nodup) :
    ((dictInsert m k v).map Prod.fst).Nodup := by
  rw [dictInsert_keys]
  by_cases hc : dictContains m k = true
  · simp [hc, h]
  · have hk : k ∉ m.map Prod.fst := fun hm =>
      hc ((dictContains_iff_mem m k).mpr hm)
    simp only [hc, if_false, Bool.false_eq_true]
    refine List.Nodup.append h (List.nodup_singleton k) ?_
    intro a ha hb
    rw [List.mem_singleton] at hb
    subst hb
    exact hk ha

/-- Helper for C8: on any non-failing backend, saving a token record and
reading it back under the same user id yields exactly the saved record, and
the resulting backend is again non-failing. -/
theorem sm_save_get_round (b : SMBackend) (td : List (String × Json))
    (u : String) (hb : b ≠ .failing) (htd : IsTokenRecordObj td) :
    ∃ b', sm_save_token b td u = .ok b' ∧ b' ≠ .failing ∧
      sm_get_token b' u = some (.obj td) := by
  have hTok : dictContains td "token" = true := by
    apply (dictContains_iff_mem td "token").mpr
    rw [htd]; decide
  have hDef : dictContains td "default" = false := by
    apply dictContains_eq_false_of_not_mem
    rw [htd]; decide
  have hBare : sm_get_token (.present td) "default" = some (.obj td) := by
    simp [sm_get_token, hDef, hTok]
  have hIns : ∀ existing : List (String × Json),
      sm_get_token (.present (dictInsert existing u (Json.obj td))) u =
        some (.obj td) := by
    intro existing
    simp [sm_get_token, dictContains_insert_self, dictFind_insert_self]
  cases b with
  | failing => exact absurd rfl hb
  | absent =>
      by_cases hu : u = "default"
      · subst hu
        exact ⟨.present td, by simp [sm_save_token], fun h =>
          SMBackend.noConfusion h, hBare⟩
      · refine ⟨.present (dictInsert [] u (Json.obj td)), ?_,
          fun h => SMBackend.noConfusion h, hIns []⟩
        simp [sm_save_token, hu]
  | present existing =>
      by_cases hu : u = "default"
      · subst hu
        by_cases he : existing.isEmpty = true
        · exact ⟨.present td, by simp [sm_save_token, he], fun h =>
            SMBackend.noConfusion h, hBare⟩
        · refine ⟨.present (dictInsert existing "default" (Json.obj td)),
            ?_, fun h => SMBackend.noConfusion h, hIns existing⟩
          simp [sm_save_token, he]
      · refine ⟨.present (dictInsert existing u (Json.obj td)), ?_,
          fun h => SMBackend.noConfusion h, hIns existing⟩
        simp [sm_save_token, hu]

/-- C8: for every token record (the six-key JSON object) and user id,
save-then-get returns exactly the saved value, and saving twice leaves only
the second payload retrievable, in both stores; the SQLite upsert also
keeps user ids duplicate-free. -/
theorem C8_round_trip_upsert :
    (∀ (db : List (String × Json)) (td : Json) (u : String),
      sqlite_get_token (sqlite_save_token db td u) u = some td) ∧
    (∀ (db : List (String × Json)) (td₁ td₂ : Json) (u : String),
      sqlite_get_token
        (sqlite_save_token (sqlite_save_token db td₁ u) td₂ u) u =
        some td₂) ∧
    (∀ (db : List (String × Json)) (td : Json) (u : String),
      (db.map Prod.fst).Nodup →
      ((sqlite_save_token db td u).map Prod.fst).Nodup) ∧
    (∀ (b : SMBackend) (td : List (String × Json)) (u : String),
      b ≠ .failing → IsTokenRecordObj td →
      ∃ b', sm_save_token b td u = .ok b' ∧
        sm_get_token b' u = some (.obj td)) ∧
    (∀ (b : SMBackend) (td₁ td₂ : List (String × Json)) (u : String),
      b ≠ .failing → IsTokenRecordObj td₁ → IsTokenRecordObj td₂ →
      ∃ b₁ b₂, sm_save_token b td₁ u = .ok b₁ ∧
        sm_save_token b₁ td₂ u = .ok b₂ ∧
        sm_get_token b₂ u = some (.obj td₂)) := by
  refine ⟨?_, ?_, ?_, ?_, ?_⟩
  · intro db td u
    exact dictFind_insert_self db u td
  · intro db td₁ td₂ u
    exact dictFind_insert_self (sqlite_save_token db td₁ u) u td₂
  · intro db td u h
    exact dictInsert_keys_nodup u td h
  · intro b td u hb htd
    obtain ⟨b', h1, _, h2⟩ := sm_save_get_round b td u hb htd
    exact ⟨b', h1, h2⟩
  · intro b td₁ td₂ u hb h1 h2
    obtain ⟨b₁, hs1, hb1, _⟩ := sm_save_get_round b td₁ u hb h1
    obtain ⟨b₂, hs2, _, hget⟩ := sm_save_get_round b₁ td₂ u hb1 h2
    exact ⟨b₁, b₂, hs1, hs2, hget⟩

/-- C8 witness: the round-trip applied to a concrete record in each store.
-/
theorem C8_witness :
    sqlite_get_token (sqlite_save_token [] (Json.str "x") "default")
      "default" = some (Json.str "x") ∧
    (∃ b', sm_save_token .absent bareDefaultEx "default" = .ok b' ∧
      sm_get_token b' "default" = some (.obj bareDefaultEx)) :=
  ⟨C8_round_trip_upsert.1 [] (Json.str "x") "default",
   C8_round_trip_upsert.2.2.2.1 .absent bareDefaultEx "default"
     (fun h => SMBackend.noConfusion h) (by decide)⟩

end GSuite
